import Mathlib

/-!
Verification of the pygge 2d-graphics engine (layout and compositing) against its
natural-language specification.

The development shallowly embeds the relevant parts of the source:

* `pygge/data_types.py` — the `TwoTuple` two-component value class and its
  `Positive`/`PositiveInt`/`PositiveFloat` variants.  Python floats are modelled
  exactly as rationals (`ℚ`); Python's `int(...)` / numpy `astype(int)` casts are
  modelled as truncation toward zero.
* `pygge/abc.py` — the layout resolver (`HasParent._relative_position`,
  `HasParent._numeric_anchor`, `HasParent.position_on_parent`).
* `pygge/core.py` — `Graphic.render`, `Graphic._get_render_box`,
  `Graphic.clamp_to_size_tuple`, and the `Children` registry (`__setattr__`).
* `pygge/graphic.py` — the later `Graphic.render` rewrite.
* `pygge/text.py` — the `Text._shrunk_to_box` shrink-to-fit loop.
* `pygge/parent.py` — `Adder.__call__` / `HasChildren`.

Raster operations from the PIL backend (image buffers, rotation, text
measurement) are opaque collaborators; where a claim depends on a backend
result it enters the model as an explicit parameter.
-/

/-- A two-component numeric value. Python/numpy floats are modelled exactly as
rationals, so all arithmetic in the embedding is exact. -/
abbrev Q2 := ℚ × ℚ

/-- Python's `int(x)` (and numpy's `astype(int)`): truncation toward zero,
i.e. the T-rounding quotient of the reduced numerator by the denominator. -/
def pyInt (q : ℚ) : ℤ := q.num.tdiv q.den

/-- Componentwise `int` cast of a 2d value, as in `PILArray.inttuple` and the
`Int2d` setters. -/
def pyInt2 (v : Q2) : ℤ × ℤ := (pyInt v.1, pyInt v.2)

/-- Componentwise addition of 2d values (`TwoTuple.__add__`, numpy `+`). -/
def add2 (a b : Q2) : Q2 := (a.1 + b.1, a.2 + b.2)

/-- Componentwise subtraction of 2d values (`TwoTuple.__sub__`, numpy `-`). -/
def sub2 (a b : Q2) : Q2 := (a.1 - b.1, a.2 - b.2)

/-- The error outcomes of the embedded operations.  The Python source raises
`ValueError` / `TypeError` / `KeyError` with distinguishing messages; the spec
gives the conditions symbolic names.  Each constructor stands for one raise
site. -/
inductive Err where
  /-- Source: `data_types.py` `Positive._is_positive`: "Only strictly positive values
  allowed". -/
  | nonPositive
  /-- Source: `data_types.py` `TwoTuple.clamp`: "Please provide at least one of min_ or
  max_ clamp values". -/
  | invalidArgument
  /-- Source: `data_types.py` `TwoTuple.__getitem__`: "Only 0 and 1 indexes (x and y)
  are taken". -/
  | keyError
  /-- Source: `core.py` `Graphic.render`: "Position is not None, but this graphic has
  no parent." / "Position is None, but this graphic has a parent." -/
  | detachedPosition (positionIsSet : Bool)
  /-- Source: `core.py` `Graphic.render`: "Cannot render ... because it is soooooo
  boring." (no children and no color). -/
  | boring
  /-- Source: `core.py` `Graphic.render`: "Child ... too big ... for parent". -/
  | oversized
  /-- Source: `text.py` `Text._ensure_leq`: "... is not always <= ...". -/
  | textTooBig
  deriving Repr, DecidableEq

/-! ## `pygge/data_types.py` — `TwoTuple` and the positive variants -/

/-- The pure clamping computation of `TwoTuple.clamp` (`data_types.py` lines
148–153): apply the lower bound componentwise with `max`, then the upper bound
componentwise with `min`, each only when the bound is given. -/
def clampCore (v : Q2) (mn mx : Option Q2) : Q2 :=
  let c1 : Q2 :=
    match mn with
    | none => v
    | some m => (max v.1 m.1, max v.2 m.2)
  match mx with
  | none => c1
  | some m => (min c1.1 m.1, min c1.2 m.2)

/-- Embeds `TwoTuple.clamp(min_, max_)` (`data_types.py` lines 145–153): raises
`ValueError` when neither bound is given, otherwise returns the componentwise
clamped value. -/
def TwoTuple.clamp (v : Q2) (mn mx : Option Q2) : Except Err Q2 :=
  if mn = none ∧ mx = none then .error .invalidArgument
  else .ok (clampCore v mn mx)

/-- Embeds `TwoTuple.__getitem__` (`data_types.py` lines 45–51): index `0` gives `x`,
index `1` gives `y`, anything else raises `KeyError`. -/
def TwoTuple.getItem (v : Q2) (item : ℤ) : Except Err ℚ :=
  if item = 0 then .ok v.1
  else if item = 1 then .ok v.2
  else .error .keyError

/-- One component setter of `PositiveInt` (`data_types.py` lines 204–213):
`Positive.is_positive` first checks the raw value `x <= 0` (raising
`ValueError` when it is non-positive) and only then the wrapped setter stores
`int(new_x)`, truncating toward zero. -/
def positiveIntComponent (q : ℚ) : Except Err ℤ :=
  if q ≤ 0 then .error .nonPositive else .ok (pyInt q)

/-- One component setter of `PositiveFloat` (`data_types.py` lines 192–201):
the same raw-value check followed by `float(new_x)`, which is exact. -/
def positiveFloatComponent (q : ℚ) : Except Err ℚ :=
  if q ≤ 0 then .error .nonPositive else .ok q

/-- Embeds `PositiveInt(x, y)`: `TwoTuple.__init__` assigns both components through
the guarded setters. -/
def mkPositiveInt (x y : ℚ) : Except Err (ℤ × ℤ) := do
  let a ← positiveIntComponent x
  let b ← positiveIntComponent y
  return (a, b)

/-- Embeds `PositiveFloat(x, y)`: both components through the guarded `float` setters. -/
def mkPositiveFloat (x y : ℚ) : Except Err Q2 := do
  let a ← positiveFloatComponent x
  let b ← positiveFloatComponent y
  return (a, b)

/-- Embeds `TwoTuple.__sub__` on a `PositiveInt` with a scalar right operand
(`data_types.py` lines 93–97): the difference is fed back through
`self.__class__`, i.e. through the positivity-guarded constructor. -/
def PositiveInt.subScalar (v : ℤ × ℤ) (other : ℚ) : Except Err (ℤ × ℤ) :=
  mkPositiveInt (mkRat v.1 1 - other) (mkRat v.2 1 - other)

/-- Embeds `TwoTuple.__mul__` on a `PositiveInt` with a scalar right operand
(`data_types.py` lines 105–110): the product is fed back through the
positivity-guarded constructor. -/
def PositiveInt.mulScalar (v : ℤ × ℤ) (other : ℚ) : Except Err (ℤ × ℤ) :=
  mkPositiveInt (mkRat v.1 1 * other) (mkRat v.2 1 * other)

/-! ## `pygge/abc.py` — the layout resolver -/

/-- The two values admitted for `anchor` and `coordinate_frame`
(`descriptors.py` `Alignment.LocationString._ALLOWABLE`, `core.py` `IsOneOfThese('...', 'upper
left', 'center')`): `"upper left"` or `"center"`; any other string is rejected
when the attribute is assigned. -/
inductive LocationString where
  | upperLeft
  | center
  deriving Repr, DecidableEq

/-- Embeds `HasParent._relative_position` (`abc.py` lines 57–66), for a node whose
parent is present: under `"upper left"` the declared position itself; under
`"center"` `self.position * (1, -1) + self.parent.size * 0.5`. -/
def relativePosition (frame : LocationString) (parentSize pos : Q2) : Q2 :=
  match frame with
  | .upperLeft => pos
  | .center => add2 (pos.1 * 1, pos.2 * (-1)) (parentSize.1 * (1/2), parentSize.2 * (1/2))

/-- Embeds `HasParent._numeric_anchor` (`abc.py` lines 69–78), for a node whose parent
is present: `(0, 0)` under `"upper left"`, `self.size * 0.5` under
`"center"`. -/
def numericAnchor (anchor : LocationString) (ownSize : Q2) : Q2 :=
  match anchor with
  | .upperLeft => (0, 0)
  | .center => (ownSize.1 * (1/2), ownSize.2 * (1/2))

/-- Embeds `HasParent.position_on_parent` (`abc.py` lines 81–82):
`self._relative_position - self._numeric_anchor`. -/
def positionOnParent (frame anchor : LocationString) (parentSize ownSize pos : Q2) : Q2 :=
  sub2 (relativePosition frame parentSize pos) (numericAnchor anchor ownSize)

/-- Modelled from the spec (for comparison with the code): `referencePoint(frame)`
is `(0,0)` for `UpperLeft` and `0.5 * parent.size` for `Center`. -/
def referencePointFor (frame : LocationString) (parentSize : Q2) : Q2 :=
  match frame with
  | .upperLeft => (0, 0)
  | .center => (parentSize.1 / 2, parentSize.2 / 2)

/-- Modelled from the spec (for comparison with the code): `positionTransform`
flips the y-sign under `Center` (`position * (1, -1)`) and is the identity
under `UpperLeft`. -/
def positionTransform (frame : LocationString) (pos : Q2) : Q2 :=
  match frame with
  | .upperLeft => pos
  | .center => (pos.1, -pos.2)

/-- Modelled from the spec (for comparison with the code): `anchorOffset(anchor)`
is `(0,0)` for `UpperLeft` and `0.5 * ownSize` for `Center`. -/
def anchorOffset (anchor : LocationString) (ownSize : Q2) : Q2 :=
  match anchor with
  | .upperLeft => (0, 0)
  | .center => (ownSize.1 / 2, ownSize.2 / 2)

/-! ## `pygge/core.py` — render box and render checks -/

/-- Embeds `Graphic.clamp_to_size_tuple(values, size)` (`core.py` lines 268–270):
`np.clip(values, (0, 0), size)` componentwise. -/
def clampToSizeTuple (v size : ℤ × ℤ) : ℤ × ℤ :=
  (min (max v.1 0) size.1, min (max v.2 0) size.2)

/-- The unclamped upper-left corner `corner1` computed inside
`Graphic._get_render_box` (`core.py` lines 245–263): resolve the declared
position against the coordinate frame (`0.5 * self.parent.size + (1, -1) *
self.position` under `"center"`), subtract the anchor shift (`0.5 * size` under
`"center"`, where `size` is the rendered image's size), and truncate to an int
tuple. -/
def coreCorner1 (imgSize : ℤ × ℤ) (pos : Q2) (frame anchor : LocationString) (parentSize : Q2) :
    ℤ × ℤ :=
  let position : Q2 :=
    match frame with
    | .upperLeft => pos
    | .center =>
        (parentSize.1 * (1/2) + 1 * pos.1, parentSize.2 * (1/2) + (-1) * pos.2)
  let shift : Q2 :=
    match anchor with
    | .upperLeft => (0, 0)
    | .center => ((imgSize.1 : ℚ) * (1/2), (imgSize.2 : ℚ) * (1/2))
  pyInt2 (sub2 position shift)

/-- Embeds `Graphic._get_render_box(image)` (`core.py` lines 245–266): `corner1` as
above, `corner2 = corner1 + image.size`, both clamped into `[0,
parent.size.inttuple]` componentwise. -/
def getRenderBox (imgSize : ℤ × ℤ) (pos : Q2) (frame anchor : LocationString) (parentSize : Q2) :
    (ℤ × ℤ) × (ℤ × ℤ) :=
  let c1 := coreCorner1 imgSize pos frame anchor parentSize
  let c2 := (c1.1 + imgSize.1, c1.2 + imgSize.2)
  let maxSize := pyInt2 parentSize
  (clampToSizeTuple c1 maxSize, clampToSizeTuple c2 maxSize)

/-- The state of one `core.py` `Graphic` node that `Graphic.render` consults:
`size` (kept strictly positive by the `Positive` descriptor), `color`,
`position`, `anchor`, `coordinate_frame`, `angle`, and how many children its
`Children` collection holds (`len(self.children)`). -/
structure CoreNode where
  size : Q2
  color : Option String
  position : Option Q2
  anchor : LocationString
  coordinateFrame : LocationString
  angle : ℚ
  childCount : ℕ
  deriving Repr, DecidableEq

/-- What a successful `core.py` `Graphic.render` leaves behind: the size of the
(possibly rotated) materialized image, and — when the node has a parent — the
box it was pasted into on the parent (`self.parent.image.paste(image,
box=self._get_render_box(image), mask=image)`). -/
structure CoreRenderOut where
  imageSize : ℤ × ℤ
  pasteBox : Option ((ℤ × ℤ) × (ℤ × ℤ))
  deriving Repr, DecidableEq

/-- Embeds `Graphic.render` (`core.py` lines 222–243) for one node.

`parentSize` is `self.parent.size` when the node is attached and `none` when
`self.parent is None`.  `childrenRes` abstracts the recursive
`self.children.render()` call (`Canvas.render`), which either succeeds or
propagates the first failing child's error.  `rotate` abstracts the PIL
backend's `image.rotate(angle, expand=True).size`; the source only calls it
when `self.angle != 0`.

The check sequence of the source, in order: raise when position is set but
there is no parent; raise when a parent is set but position is `None`; raise
the "boring" error when the node has no children and no color; recurse into the
children; rotate; when parented, raise when the rotated image exceeds the
parent's size in either dimension (`np.any(image.size > self.parent.size)`),
else paste into `_get_render_box`. -/
def coreRender (g : CoreNode) (parentSize : Option Q2) (childrenRes : Except Err Unit)
    (rotate : (ℤ × ℤ) → ℚ → ℤ × ℤ) : Except Err CoreRenderOut :=
  match g.position, parentSize with
  | some _, none => .error (.detachedPosition true)
  | none, some _ => .error (.detachedPosition false)
  | none, none =>
      if g.childCount = 0 ∧ g.color = none then .error .boring
      else do
        let _ ← childrenRes
        let imgSize := pyInt2 g.size
        let rotated := if g.angle ≠ 0 then rotate imgSize g.angle else imgSize
        return ⟨rotated, none⟩
  | some pos, some ps =>
      if g.childCount = 0 ∧ g.color = none then .error .boring
      else do
        let _ ← childrenRes
        let imgSize := pyInt2 g.size
        let rotated := if g.angle ≠ 0 then rotate imgSize g.angle else imgSize
        if mkRat rotated.1 1 > ps.1 ∨ mkRat rotated.2 1 > ps.2 then .error .oversized
        else return ⟨rotated, some (getRenderBox rotated pos g.coordinateFrame g.anchor ps)⟩

/-- Recognizes the detached-position failure among `coreRender` outcomes. -/
def isDetachedErr {α : Type} : Except Err α → Bool
  | .error (.detachedPosition _) => true
  | _ => false

/-! ## `pygge/graphic.py` — the later render rewrite -/

/-- Embeds `Text.render` of `pygge/text.py` (lines 59–69) as called from
`graphic.Graphic.render`: when `self.text is None` it returns immediately and
draws nothing; otherwise it lays the text out and `_ensure_leq` raises when the
measured size exceeds the parent's size.  `textFits` abstracts the backend
measurement comparison `np.all(self.size <= self.parent.size)`. -/
def textRender (text : Option String) (textFits : Bool) : Except Err Unit :=
  match text with
  | none => .ok ()
  | some _ => if textFits then .ok () else .error .textTooBig

/-- What one child contributes to `graphic.Graphic.render`: the child's own
`render()` and `crop()` either fail or produce a cropped image pasted at the
child's `clamped_box`. -/
abbrev ChildPaste := (ℤ × ℤ) × (ℤ × ℤ)

/-- The image state built by `graphic.Graphic.render`: the fresh background
buffer (`Image.new("RGBA", self.size.astuple(), self.color)`) plus the pastes
performed, in child order. -/
structure GImage where
  size : ℤ × ℤ
  color : Option String
  pastes : List ChildPaste
  deriving Repr, DecidableEq

/-- Embeds `Graphic.render` of `pygge/graphic.py` (lines 104–110): allocate the
background at `self.size` filled with `self.color`, render the text component,
then for each child in `self.children.values()` render it, crop it, and paste
it at its `clamped_box`.  `childResults` abstracts the per-child
`child.render(); child.crop()` outcomes in dictionary order; the loop stops at
the first failing child.  There is no other failure branch: in particular
nothing is raised for an empty child collection or an unset color. -/
def graphicRender (size : ℤ × ℤ) (color : Option String) (text : Option String)
    (textFits : Bool) (childResults : List (Except Err ChildPaste)) : Except Err GImage := do
  let _ ← textRender text textFits
  let pastes ← childResults.mapM id
  return ⟨size, color, pastes⟩

/-! ## `pygge/core.py` `Children.__setattr__` and `pygge/parent.py` `Adder` -/

/-- A child registry: the `__dict__` of a `Children` instance restricted to its
non-reserved keys, i.e. an insertion-ordered association of names to graphics
(graphics themselves are represented by identifiers — `Children.__setattr__`
rejects non-`Graphic` values before this point). -/
abbrev Registry := List (String × ℕ)

/-- Embeds `Children.reserved_keys` (`core.py` line 95). -/
def reservedKeys : List String := ["_parent", "parent", "_layer_dict"]

/-- Python `dict`/`__dict__` assignment `d[k] = v`: an existing key keeps its
insertion position and gets the new value; a new key is appended. -/
def dictSet (reg : Registry) (k : String) (v : ℕ) : Registry :=
  if k ∈ reg.map Prod.fst then
    reg.map (fun p => if p.1 = k then (p.1, v) else p)
  else reg ++ [(k, v)]

/-- Embeds `Children.__setattr__(key, value)` (`core.py` lines 112–121) restricted to
graphic values: a reserved key is stored as a plain attribute (leaving the
child registry untouched); any other key stores the graphic under that name via
ordinary attribute assignment — there is no check whether `key` is already
present, so an existing name is overwritten. -/
def childrenSetattr (reg : Registry) (key : String) (g : ℕ) : Registry :=
  if key ∈ reservedKeys then reg else dictSet reg key g

/-- Embeds `Adder.__call__(name, child)` (`parent.py` lines 8–9):
`self._graphic.children[name] = child`, a plain dictionary assignment. -/
def adderCall (reg : Registry) (name : String) (child : ℕ) : Registry :=
  dictSet reg name child

/-- Name lookup in a registry (`getattr(children, name)` / `children[name]`). -/
def lookupChild (reg : Registry) (k : String) : Option ℕ :=
  match reg with
  | [] => none
  | p :: rest => if p.1 = k then some p.2 else lookupChild rest k

/-! ## `pygge/text.py` — the shrink-to-fit loop -/

/-- The `while True` loop of `Text._shrunk_to_box` (`text.py` lines 79–87):
starting from the nominal `self.font_size`, build the font at the candidate
size, wrap the text to the available width, and exit when the wrapped block's
height fits (`wrapped_size[1] + self.position[1] <= self.parent.size[1]`);
otherwise decrement the candidate by 1 and retry.

`fits s` abstracts the backend-dependent exit test at candidate size `s`
(`ImageFont.truetype(self.font, size=s)` followed by `_fit_width` and the
height comparison).  The source loop is unbounded — it has no check that the
candidate stays positive and no failure branch of its own — so the embedding
carries explicit `fuel`; `none` means the loop has not exited within `fuel`
iterations. -/
def shrunkFontSize (fits : ℤ → Bool) : ℕ → ℤ → Option ℤ
  | 0, _ => none
  | fuel + 1, s => if fits s then some s else shrunkFontSize fits fuel (s - 1)

deriving instance DecidableEq for Except

/-! # Helper lemmas -/

theorem clampScalar_idem (a m M : ℚ) :
    min (max (min (max a m) M) m) M = min (max a m) M := by
  rw [max_min_distrib_right, max_assoc, max_self, min_assoc, min_eq_right (le_max_left M m)]

theorem lookupChild_append (reg : Registry) (k k' : String) (g : ℕ) :
    lookupChild (reg ++ [(k, g)]) k' =
      (lookupChild reg k').orElse (fun _ => if k = k' then some g else none) := by
  induction reg with
  | nil => by_cases h : k = k' <;> simp [lookupChild, h, Option.orElse]
  | cons p rest ih =>
      by_cases h : p.1 = k' <;> simp [lookupChild, h, ih, Option.orElse]

theorem lookupChild_update_self (reg : Registry) (k : String) (g : ℕ)
    (h : k ∈ reg.map Prod.fst) :
    lookupChild (reg.map (fun p => if p.1 = k then (p.1, g) else p)) k = some g := by
  induction reg with
  | nil => simp at h
  | cons p rest ih =>
      simp only [List.map_cons, List.mem_cons] at h
      by_cases hp : p.1 = k
      · simp [lookupChild, hp]
      · have : k ∈ rest.map Prod.fst := by
          rcases h with h | h
          · exact absurd h.symm hp
          · exact h
        simp [lookupChild, hp, ih this]

theorem lookupChild_update_other (reg : Registry) (k k' : String) (g : ℕ)
    (h : k' ≠ k) :
    lookupChild (reg.map (fun p => if p.1 = k then (p.1, g) else p)) k' =
      lookupChild reg k' := by
  have h' : k ≠ k' := fun hh => h hh.symm
  induction reg with
  | nil => simp [lookupChild]
  | cons p rest ih =>
      by_cases hp : p.1 = k
      · have hpk : p.1 ≠ k' := by rw [hp]; exact fun hh => h hh.symm
        simp [lookupChild, hp, hpk, ih, h, h']
      · by_cases hp' : p.1 = k' <;> simp [lookupChild, hp, hp', ih, h, h']

/-! # Claims -/

/-- C1: for every child node with a parent, the resolved upper-left corner equals
the coordinate-frame reference point plus the transformed position minus the
anchor offset — the reference point being `(0,0)` under `"upper left"` and
`0.5 * parent.size` under `"center"`, the transform multiplying the position by
`(1, -1)` under `"center"` and leaving it unchanged under `"upper left"`, and
the anchor offset being `(0,0)` under `"upper left"` and `0.5 * ownSize` under
`"center"`.  In particular, for parent size `(4,4)`, child size `(2,2)`,
position `(0,0)`, frame `"center"` and anchor `"upper left"` the resolved
top-left corner is `(2,2)` (both in `abc.py`'s `position_on_parent` and as
`corner1` of `core.py`'s `_get_render_box`), and switching the anchor to
`"center"` moves it to `(1,1)`. -/
theorem layout_resolved_corner :
    (∀ (frame anchor : LocationString) (parentSize ownSize pos : Q2),
        positionOnParent frame anchor parentSize ownSize pos =
          sub2 (add2 (referencePointFor frame parentSize) (positionTransform frame pos))
            (anchorOffset anchor ownSize))
    ∧ positionOnParent .center .upperLeft (4, 4) (2, 2) (0, 0) = (2, 2)
    ∧ positionOnParent .center .center (4, 4) (2, 2) (0, 0) = (1, 1)
    ∧ coreCorner1 (2, 2) (0, 0) .center .upperLeft (4, 4) = (2, 2)
    ∧ coreCorner1 (2, 2) (0, 0) .center .center (4, 4) = (1, 1) := by
  refine ⟨?_, ?_, ?_, ?_, ?_⟩
  · intro frame anchor ps os pos
    cases frame <;> cases anchor <;>
      simp only [positionOnParent, relativePosition, numericAnchor, referencePointFor,
        positionTransform, anchorOffset, add2, sub2, Prod.ext_iff] <;>
      constructor <;> ring
  · norm_num [positionOnParent, relativePosition, numericAnchor, add2, sub2]
  · norm_num [positionOnParent, relativePosition, numericAnchor, add2, sub2]
  · norm_num [coreCorner1, sub2, pyInt2]
    decide
  · norm_num [coreCorner1, sub2, pyInt2]
    decide

/-- C5: the claim says every `PositiveInt`/`PositiveFloat` in existence has both
components strictly positive, that construction with a component `≤ 0` fails,
and that every arithmetic result with a component `≤ 0` fails.  The
construction/arithmetic guards do fire on raw values `≤ 0` (conjuncts 2–4), and
`PositiveFloat` keeps the invariant (conjunct 6); but `PositiveInt` checks
positivity on the raw value *before* the `int()` cast truncates it, so
constructing from `(0.5, 0.5)` — and multiplying a positive vector by `0.3` —
is accepted and stores `(0, 0)`, breaking the positivity invariant the guard is
there to enforce (conjuncts 1 and 5). -/
theorem positive_int_truncation :
    mkPositiveInt (mkRat 1 2) (mkRat 1 2) = .ok (0, 0)
    ∧ mkPositiveInt 0 1 = .error .nonPositive
    ∧ mkPositiveInt (-3) 2 = .error .nonPositive
    ∧ PositiveInt.subScalar (4, 4) 5 = .error .nonPositive
    ∧ PositiveInt.mulScalar (1, 1) (mkRat 3 10) = .ok (0, 0)
    ∧ mkPositiveFloat (mkRat 1 2) (mkRat 1 2) = .ok (mkRat 1 2, mkRat 1 2) := by
  have h4 : mkRat (4 : ℤ) 1 - (5 : ℚ) = mkRat (-1) 1 := by norm_num [Rat.mkRat_eq_div]
  have h5 : mkRat (1 : ℤ) 1 * mkRat 3 10 = mkRat 3 10 := by norm_num [Rat.mkRat_eq_div]
  refine ⟨by decide, by decide, by decide, ?_, ?_, by decide⟩
  · show mkPositiveInt (mkRat 4 1 - 5) (mkRat 4 1 - 5) = .error .nonPositive
    rw [h4]; decide
  · show mkPositiveInt (mkRat 1 1 * mkRat 3 10) (mkRat 1 1 * mkRat 3 10) = .ok (0, 0)
    rw [h5]; decide

/-- C8: rendering a node with zero children and no background color succeeds in
the `graphic.py` rewrite (the revision the spec's "final design" sentence
describes): `Graphic.render` allocates the background, skips the text component
when no text is set, iterates over no children, and has no failure branch for
an empty collection or an unset color.  (The earlier `core.py` revision instead
raises its "boring" error here; see `coreRender`.) -/
theorem graphic_render_transparent_container (size : ℤ × ℤ) (color : Option String)
    (textFits : Bool) :
    graphicRender size color none textFits [] = .ok ⟨size, color, []⟩ := rfl

/-- C10: indexing a `TwoTuple` is total exactly on `{0, 1}`: index `0` returns
the x component, index `1` the y component, and every other index raises
`KeyError` instead of returning a value. -/
theorem two_tuple_getitem_on_01 (v : Q2) :
    TwoTuple.getItem v 0 = .ok v.1 ∧ TwoTuple.getItem v 1 = .ok v.2
    ∧ ∀ i : ℤ, i ≠ 0 → i ≠ 1 → TwoTuple.getItem v i = .error .keyError := by
  refine ⟨rfl, rfl, fun i h0 h1 => ?_⟩
  simp [TwoTuple.getItem, h0, h1]

/-- Witness for C10 at `v = (3, 7)`, `i = 5`. -/
theorem two_tuple_getitem_on_01_witness :
    TwoTuple.getItem (3, 7) 5 = .error .keyError :=
  (two_tuple_getitem_on_01 (3, 7)).2.2 5 (by decide) (by decide)

theorem clampCore_idem (v : Q2) (mn mx : Option Q2) :
    clampCore (clampCore v mn mx) mn mx = clampCore v mn mx := by
  rcases mn with _ | m <;> rcases mx with _ | M <;> simp only [clampCore]
  · simp [min_assoc]
  · simp [max_assoc]
  · exact Prod.ext (clampScalar_idem v.1 m.1 M.1) (clampScalar_idem v.2 m.2 M.2)

/-- C9: `clamp` is idempotent: for every 2-vector `v` and bounds with at least
one of them given, clamping twice equals clamping once, and — when both bounds
are given and ordered — each component of the result lies in `[min, max]`.
(With neither bound given the source raises `ValueError` instead.) -/
theorem clamp_idempotent (v : Q2) (mn mx : Option Q2) (h : mn ≠ none ∨ mx ≠ none) :
    ∃ w, TwoTuple.clamp v mn mx = .ok w
      ∧ TwoTuple.clamp w mn mx = .ok w
      ∧ ∀ m M, mn = some m → mx = some M → m.1 ≤ M.1 → m.2 ≤ M.2 →
          m.1 ≤ w.1 ∧ w.1 ≤ M.1 ∧ m.2 ≤ w.2 ∧ w.2 ≤ M.2 := by
  have hcond : ¬(mn = none ∧ mx = none) := by
    rcases h with h | h <;> exact fun hc => h (by simp [hc.1, hc.2])
  refine ⟨clampCore v mn mx, ?_, ?_, ?_⟩
  · rw [TwoTuple.clamp, if_neg hcond]
  · rw [TwoTuple.clamp, if_neg hcond, clampCore_idem]
  · rintro m M rfl rfl h1 h2
    simp only [clampCore]
    exact ⟨le_min (le_max_right _ _) h1, min_le_right _ _,
      le_min (le_max_right _ _) h2, min_le_right _ _⟩

/-- Witness for C9 at `v = (5, -2)`, bounds `(0,0)` and `(4,4)`. -/
theorem clamp_idempotent_witness :
    ∃ w, TwoTuple.clamp (5, -2) (some (0, 0)) (some (4, 4)) = .ok w
      ∧ TwoTuple.clamp w (some (0, 0)) (some (4, 4)) = .ok w
      ∧ ∀ m M, some ((0 : ℚ), (0 : ℚ)) = some m → some ((4 : ℚ), (4 : ℚ)) = some M →
          m.1 ≤ M.1 → m.2 ≤ M.2 →
          m.1 ≤ w.1 ∧ w.1 ≤ M.1 ∧ m.2 ≤ w.2 ∧ w.2 ≤ M.2 :=
  clamp_idempotent (5, -2) (some (0, 0)) (some (4, 4)) (Or.inl (by simp))

/-- C6 counterexample: the claim says the shrink-to-fit loop either returns a
positive fitting font size or fails with a no-fitting-size error before the
candidate drops to `≤ 0`.  The source loop has no such guard: with a nominal
size of `5` and an exit test that first succeeds at `-3` (nothing fits at any
positive size), the loop runs straight past `0` — querying the font backend at
sizes `0, -1, -2, -3` on the way — and returns the non-positive font size `-3`
with no error raised. -/
theorem shrunk_font_size_nonpositive_exit :
    shrunkFontSize (fun s => decide (s ≤ -3)) 20 5 = some (-3) ∧ ¬(0 < (-3 : ℤ)) := by
  exact ⟨by decide, by decide⟩

/-- C6 as amended: the candidate font size decreases monotonically by the fixed
step 1 from the nominal value, and when the loop exits it returns the largest
candidate `≤` nominal whose wrapped text fits — but nothing stops that value
from being `≤ 0` (no `NoFittingSizeError` exists in the code; part 1), and when
no candidate ever fits the loop never exits at all (part 2 — in practice the
PIL backend eventually fails on a non-positive font size, which is a backend
error, not a layout error). -/
theorem shrunk_font_size_first_fit :
    (∀ (fits : ℤ → Bool) (fuel : ℕ) (s0 r : ℤ),
        shrunkFontSize fits fuel s0 = some r →
        fits r = true ∧ r ≤ s0 ∧ ∀ s : ℤ, r < s → s ≤ s0 → fits s = false)
    ∧ ∀ (fits : ℤ → Bool), (∀ s, fits s = false) → ∀ (fuel : ℕ) (s0 : ℤ),
        shrunkFontSize fits fuel s0 = none := by
  constructor
  · intro fits fuel
    induction fuel with
    | zero => intro s0 r h; exact absurd h (by simp [shrunkFontSize])
    | succ n ih =>
        intro s0 r h
        simp only [shrunkFontSize] at h
        by_cases hf : fits s0
        · rw [if_pos hf] at h
          obtain rfl : s0 = r := Option.some.inj h
          exact ⟨hf, le_refl _, fun s hs1 hs2 => absurd (lt_of_lt_of_le hs1 hs2) (lt_irrefl _)⟩
        · rw [if_neg hf] at h
          obtain ⟨h1, h2, h3⟩ := ih (s0 - 1) r h
          refine ⟨h1, by omega, fun s hs1 hs2 => ?_⟩
          rcases lt_or_eq_of_le hs2 with hlt | rfl
          · exact h3 s hs1 (by omega)
          · exact Bool.eq_false_iff.mpr hf
  · intro fits hall fuel
    induction fuel with
    | zero => intro s0; rfl
    | succ n ih => intro s0; simp only [shrunkFontSize, hall, if_false]; exact ih (s0 - 1)

/-- Witness for C6's amended theorem: part 1 applied at an exit test that first
succeeds at size 4 with nominal size 6, part 2 at a test that never succeeds. -/
theorem shrunk_font_size_first_fit_witness :
    (fun s : ℤ => decide (s ≤ 4)) 4 = true ∧ shrunkFontSize (fun _ : ℤ => false) 7 3 = none :=
  ⟨(shrunk_font_size_first_fit.1 (fun s => decide (s ≤ 4)) 3 6 4 (by decide)).1,
   shrunk_font_size_first_fit.2 (fun _ => false) (fun _ => rfl) 7 3⟩

theorem lookupChild_eq_none (reg : Registry) (k : String)
    (h : k ∉ reg.map Prod.fst) : lookupChild reg k = none := by
  induction reg with
  | nil => rfl
  | cons p rest ih =>
      simp only [List.map_cons, List.mem_cons] at h
      push_neg at h
      simp [lookupChild, Ne.symm h.1, ih h.2]

/-- C7 counterexample: the claim says attaching under an existing name fails
with a duplicate-name error and leaves the registry unchanged.  Both attachment
paths — assignment through `Children.__setattr__` in `core.py` and
`Adder.__call__` in `parent.py` — are plain dictionary stores with no presence
check: re-attaching name `"a"` succeeds, mutates the registry, and replaces the
previously attached child `1` with `2`. -/
theorem children_attach_replaces :
    childrenSetattr [("a", 1)] "a" 2 = [("a", 2)]
    ∧ adderCall [("a", 1)] "a" 2 = [("a", 2)]
    ∧ childrenSetattr [("a", 1)] "a" 2 ≠ [("a", 1)] := by decide

/-- C7 as amended: attaching under any non-reserved name always succeeds; an
existing name keeps its insertion position but its child is silently replaced
by the new one, and every other name maps to the same child as before.  No
duplicate-name error exists in the code. -/
theorem children_attach_overwrites (reg : Registry) (k : String) (g : ℕ)
    (hk : k ∉ reservedKeys) :
    lookupChild (childrenSetattr reg k g) k = some g
    ∧ ∀ k', k' ≠ k → lookupChild (childrenSetattr reg k g) k' = lookupChild reg k' := by
  unfold childrenSetattr
  rw [if_neg hk]
  unfold dictSet
  by_cases hm : k ∈ reg.map Prod.fst
  · rw [if_pos hm]
    exact ⟨lookupChild_update_self reg k g hm,
      fun k' hk' => lookupChild_update_other reg k k' g hk'⟩
  · rw [if_neg hm]
    constructor
    · rw [lookupChild_append, lookupChild_eq_none reg k hm]
      simp [Option.orElse]
    · intro k' hk'
      rw [lookupChild_append]
      cases hcase : lookupChild reg k' with
      | some v => simp [Option.orElse]
      | none => simp [Option.orElse, Ne.symm hk']

/-- Witness for C7's amended theorem: re-attaching `"a"` over `[("a",1),("b",4)]`. -/
theorem children_attach_overwrites_witness :
    lookupChild (childrenSetattr [("a", 1), ("b", 4)] "a" 2) "a" = some 2
    ∧ lookupChild (childrenSetattr [("a", 1), ("b", 4)] "a" 2) "b" =
        lookupChild [("a", 1), ("b", 4)] "b" := by
  have h := children_attach_overwrites [("a", 1), ("b", 4)] "a" 2 (by decide)
  exact ⟨h.1, h.2 "b" (by decide)⟩

/-- C2: in `core.py`'s `Graphic.render` (the revision carrying the oversize
check, pinned by `test_core.py`), a parented child whose post-rotation image
size exceeds the parent's size in either dimension fails with the oversized
error instead of being pasted — it is never clamped to fit (part 1, for any
node whose earlier checks pass: position set, not "boring", children fine).
Part 2 is the spec's scenario: a parent of size `(5,5)` with a `(10,10)` child
attached at any position fails.  (The `graphic.py` rewrite has no such check;
it crops to the clamped box instead.) -/
theorem core_render_oversized :
    (∀ (g : CoreNode) (ps : Q2) (rotate : (ℤ × ℤ) → ℚ → ℤ × ℤ) (pos : Q2),
        g.position = some pos →
        ¬(g.childCount = 0 ∧ g.color = none) →
        (mkRat (if g.angle ≠ 0 then rotate (pyInt2 g.size) g.angle else pyInt2 g.size).1 1 > ps.1
          ∨ mkRat (if g.angle ≠ 0 then rotate (pyInt2 g.size) g.angle else pyInt2 g.size).2 1 > ps.2) →
        coreRender g (some ps) (.ok ()) rotate = .error .oversized)
    ∧ ∀ (pos : Q2) (rotate : (ℤ × ℤ) → ℚ → ℤ × ℤ),
        coreRender ⟨(mkRat 10 1, mkRat 10 1), some "black", some pos, .upperLeft, .upperLeft,
            mkRat 0 1, 0⟩
          (some (mkRat 5 1, mkRat 5 1)) (.ok ()) rotate = .error .oversized := by
  have main : ∀ (g : CoreNode) (ps : Q2) (rotate : (ℤ × ℤ) → ℚ → ℤ × ℤ) (pos : Q2),
      g.position = some pos →
      ¬(g.childCount = 0 ∧ g.color = none) →
      (mkRat (if g.angle ≠ 0 then rotate (pyInt2 g.size) g.angle else pyInt2 g.size).1 1 > ps.1
        ∨ mkRat (if g.angle ≠ 0 then rotate (pyInt2 g.size) g.angle else pyInt2 g.size).2 1 > ps.2) →
      coreRender g (some ps) (.ok ()) rotate = .error .oversized := by
    rintro ⟨sz, col, posn, anc, fr, ang, cc⟩ ps rotate pos hpos hnb hbig
    simp only at hpos hnb hbig
    subst hpos
    simp only [coreRender]
    rw [if_neg hnb]
    exact if_pos hbig
  refine ⟨main, fun pos rotate =>
    main ⟨(mkRat 10 1, mkRat 10 1), some "black", some pos, .upperLeft, .upperLeft, mkRat 0 1, 0⟩
      (mkRat 5 1, mkRat 5 1) rotate pos rfl (by simp) (Or.inl ?_)⟩
  show mkRat (if (mkRat 0 1 : ℚ) ≠ 0 then rotate (pyInt2 (mkRat 10 1, mkRat 10 1)) (mkRat 0 1)
      else pyInt2 (mkRat 10 1, mkRat 10 1)).1 1 > mkRat 5 1
  rw [if_neg (by decide : ¬((mkRat 0 1 : ℚ) ≠ 0))]
  decide

/-- Witness for C2 at a concrete black `(10,10)` child at position `(0,0)` on a
`(5,5)` parent, with an identity rotation backend. -/
theorem core_render_oversized_witness :
    coreRender ⟨(mkRat 10 1, mkRat 10 1), some "black", some (mkRat 0 1, mkRat 0 1),
        .upperLeft, .upperLeft, mkRat 0 1, 0⟩
      (some (mkRat 5 1, mkRat 5 1)) (.ok ()) (fun s _ => s) = .error .oversized :=
  core_render_oversized.1
    ⟨(mkRat 10 1, mkRat 10 1), some "black", some (mkRat 0 1, mkRat 0 1),
        .upperLeft, .upperLeft, mkRat 0 1, 0⟩
    (mkRat 5 1, mkRat 5 1) (fun s _ => s) (mkRat 0 1, mkRat 0 1) rfl (by simp) (by decide)

theorem isDetachedErr_error_unit (e : Err) :
    isDetachedErr (Except.error e : Except Err CoreRenderOut) =
      isDetachedErr (Except.error e : Except Err Unit) := by
  cases e <;> rfl

/-- C3: `core.py`'s `Graphic.render` raises the detached-position error exactly
when one of `{position, parent}` is set and the other is not: a node with a
position but no parent fails, a node with a parent but no position fails, and a
node with both or neither passes this check (any later failure — the "boring"
check, a failing child, the oversize check — is a different error), provided
the recursive rendering of the children does not itself surface a
detached-position error from a misconfigured descendant. -/
theorem core_render_detached_iff (g : CoreNode) (parentSize : Option Q2)
    (childrenRes : Except Err Unit) (rotate : (ℤ × ℤ) → ℚ → ℤ × ℤ)
    (hc : isDetachedErr childrenRes = false) :
    isDetachedErr (coreRender g parentSize childrenRes rotate) = true ↔
      g.position.isSome ≠ parentSize.isSome := by
  obtain ⟨sz, col, posn, anc, fr, ang, cc⟩ := g
  cases posn with
  | none =>
      cases parentSize with
      | none =>
          simp only [coreRender, Option.isSome_none, ne_eq, not_true_eq_false, iff_false]
          by_cases hb : cc = 0 ∧ col = none
          · rw [if_pos hb]; simp [isDetachedErr]
          · rw [if_neg hb]
            rcases childrenRes with e | u
            · show ¬(isDetachedErr (Except.error e : Except Err CoreRenderOut) = true)
              rw [isDetachedErr_error_unit, hc]
              simp
            · cases u
              show ¬(isDetachedErr (Except.ok (CoreRenderOut.mk
                  (if ang ≠ 0 then rotate (pyInt2 sz) ang else pyInt2 sz) none) :
                    Except Err CoreRenderOut) = true)
              simp [isDetachedErr]
      | some ps => simp [coreRender, isDetachedErr]
  | some pos =>
      cases parentSize with
      | none => simp [coreRender, isDetachedErr]
      | some ps =>
          simp only [coreRender, Option.isSome_some, ne_eq, not_true_eq_false, iff_false]
          by_cases hb : cc = 0 ∧ col = none
          · rw [if_pos hb]; simp [isDetachedErr]
          · rw [if_neg hb]
            rcases childrenRes with e | u
            · show ¬(isDetachedErr (Except.error e : Except Err CoreRenderOut) = true)
              rw [isDetachedErr_error_unit, hc]
              simp
            · cases u
              show ¬(isDetachedErr (if mkRat (if ang ≠ 0 then rotate (pyInt2 sz) ang
                    else pyInt2 sz).1 1 > ps.1
                  ∨ mkRat (if ang ≠ 0 then rotate (pyInt2 sz) ang else pyInt2 sz).2 1 > ps.2 then
                    Except.error Err.oversized
                  else pure (CoreRenderOut.mk
                    (if ang ≠ 0 then rotate (pyInt2 sz) ang else pyInt2 sz)
                    (some (getRenderBox (if ang ≠ 0 then rotate (pyInt2 sz) ang else pyInt2 sz)
                      pos fr anc ps)))) = true)
              split_ifs <;> simp [isDetachedErr, pure, Except.pure]

/-- Witness for C3: a node with a position and no parent is reported detached. -/
theorem core_render_detached_iff_witness :
    isDetachedErr (coreRender ⟨(mkRat 2 1, mkRat 2 1), none, some (mkRat 1 1, mkRat 1 1),
        .upperLeft, .upperLeft, mkRat 0 1, 0⟩ none (.ok ()) (fun s _ => s)) = true :=
  (core_render_detached_iff ⟨(mkRat 2 1, mkRat 2 1), none, some (mkRat 1 1, mkRat 1 1),
      .upperLeft, .upperLeft, mkRat 0 1, 0⟩ none (.ok ()) (fun s _ => s) rfl).mpr (by simp)
